import Mathlib

/-!
Shallow embedding of the `automaat` web-client core: the job-result staged
render pipeline (`src/web-client/src/component/job_result.rs`) and the
keyboard-shortcut dispatcher (`src/web-client/src/service/shortcut.rs`),
with theorems settling the specification claims about them.
-/

namespace Automaat

/-! ## Job / Output model (`crate::model::job`) -/

/-- The raw result payload of a terminal job (`Output`), with its optional
raw content field `html`. -/
structure Output where
  html : Option String
deriving DecidableEq, Repr

/-- The job status: `Pending`, `Running`, `Succeeded(Output)`, `Failed(Output)`. -/
inductive Status where
  | Pending : Status
  | Running : Status
  | Succeeded : Output → Status
  | Failed : Output → Status
deriving DecidableEq, Repr

/-- A job, carrying its status (the only field the view reads). -/
structure Job where
  status : Status
deriving DecidableEq, Repr

/-- The `Output` carried by a terminal status, mirroring the
`Succeeded(string) | Failed(string)` match arms of the source; `none` for
the non-terminal statuses. -/
def statusOutput : Status → Option Output
  | Status.Succeeded o => some o
  | Status.Failed o => some o
  | _ => none

/-! ## Virtual-DOM nodes (the `dodrio` builder output, as plain trees) -/

/-- A rendered virtual-DOM node: raw text, or an element with a tag, an
attribute list and children. `text` stores its string as data, never
interpreted as markup. -/
inductive Node where
  | text : String → Node
  | elem : String → List (String × String) → List Node → Node

/-- The attribute list of a node (empty for text nodes). -/
def Node.attrs : Node → List (String × String)
  | Node.text _ => []
  | Node.elem _ a _ => a

/-- The children of a node (empty for text nodes). -/
def Node.children : Node → List Node
  | Node.text _ => []
  | Node.elem _ _ cs => cs

/-- Whether a node carries an attribute with the given name. -/
def Node.hasAttrNamed (n : Node) (name : String) : Bool :=
  n.attrs.any (fun p => p.fst == name)

mutual

/-- The raw text content of a node: the concatenation of all text
descendants, in order. -/
def Node.textContent : Node → String
  | Node.text s => s
  | Node.elem _ _ cs => Node.textContentList cs

/-- Text content of a list of nodes, concatenated in order. -/
def Node.textContentList : List Node → String
  | [] => ""
  | c :: cs => Node.textContent c ++ Node.textContentList cs

end

/-! ## `JobResult` views (`component/job_result.rs`)

The Rust views panic (`unreachable!()`) on a non-terminal status, so the
fallible ones return `Except String Node`; the panic is the `error` case. -/

/-- The message standing for the `unreachable!()` panic in the source. -/
def unreachableMsg : String := "internal error: entered unreachable code"

namespace JobResult

/-- `JobResult::header`: a fixed title, "Success!" or "Failed!", wrapped as
`header( div( div[class=status]( div( text(title) ) ) ) )`; `unreachable!()`
on a non-terminal status. -/
def header (job : Job) : Except String Node := do
  let title ← match job.status with
    | Status.Succeeded _ => Except.ok "Success!"
    | Status.Failed _ => Except.ok "Failed!"
    | _ => Except.error unreachableMsg
  Except.ok (Node.elem "header" []
    [Node.elem "div" []
      [Node.elem "div" [("class", "status")]
        [Node.elem "div" [] [Node.text title]]]])

/-- `JobResult::body`: an empty `section` with class `body`; it does not
inspect the job at all. -/
def body (_job : Job) : Node :=
  Node.elem "section" [("class", "body")] []

/-- `JobResult::staging`: a `section` with class `staging` whose single
child is the raw text of `output.html` (empty string when absent);
`unreachable!()` on a non-terminal status. -/
def staging (job : Job) : Except String Node := do
  let output ← match job.status with
    | Status.Succeeded o => Except.ok o
    | Status.Failed o => Except.ok o
    | _ => Except.error unreachableMsg
  let payload := output.html.getD ""
  Except.ok (Node.elem "section" [("class", "staging")] [Node.text payload])

/-- `JobResult::render`: a `div` classed `job-result success` or
`job-result failed` containing `[header, body, staging]`; `unreachable!()`
on a non-terminal status. -/
def render (job : Job) : Except String Node := do
  let cls ← match job.status with
    | Status.Succeeded _ => Except.ok "job-result success"
    | Status.Failed _ => Except.ok "job-result failed"
    | _ => Except.error unreachableMsg
  let hdr ← header job
  let stg ← staging job
  Except.ok (Node.elem "div" [("class", cls)] [hdr, body job, stg])

end JobResult

/-! ## Shortcut service (`service/shortcut.rs`) -/

/-- The Enter key code (`pub(crate) const ENTER: u32 = 13`). -/
def ENTER : Nat := 13

/-- The Escape key code (`pub(crate) const ESCAPE: u32 = 27`). -/
def ESCAPE : Nat := 27

/-- The F key code (`pub(crate) const F: u32 = 70`). -/
def F : Nat := 70

/-- The active route (`crate::router::Route`): `Home`, or `Task(id)`. -/
inductive Route where
  | Home : Route
  | Task : Nat → Route
deriving DecidableEq, Repr

/-- The dynamic kind of the DOM element that is the key event's target,
as far as `wasm_bindgen::JsCast::has_type` instance checks can tell it
apart. `htmlInput` stands for `HtmlInputElement`; a textarea, a
contenteditable region, a button or any other element is a different
class. -/
inductive ElementKind where
  | htmlInput : ElementKind
  | htmlTextArea : ElementKind
  | contentEditable : ElementKind
  | button : ElementKind
  | other : String → ElementKind
deriving DecidableEq, Repr

/-- `target.has_type::<HtmlInputElement>()`: true exactly for an
`HtmlInputElement` target. -/
def hasTypeHtmlInputElement : ElementKind → Bool
  | ElementKind.htmlInput => true
  | _ => false

/-- A keydown event as the handler sees it: its key code
(`event.key_code()`) and its target (`event.target()` is an `Option`). -/
structure KeyboardEvent where
  keyCode : Nat
  target : Option ElementKind
deriving DecidableEq, Repr

/-- The actions the handler can trigger: `navbar.focus_search()`,
`navbar.blur_search()`, the spawned asynchronous
`C::close_active_task(root, vdom)` call, and clicking the task-details
submit control. -/
inductive Action where
  | focusSearch : Action
  | blurSearch : Action
  | closeActiveTask : Action
  | clickSubmit : Action
deriving DecidableEq, Repr

/-- What one run of the keydown handler did: the actions it triggered, in
order, and whether it called `event.prevent_default()`. -/
structure HandlerResult where
  actions : List Action
  preventedDefault : Bool
deriving DecidableEq, Repr

/-- The message standing for the `unwrap_throw()` exception on
`event.target()` when the event has no target. -/
def unwrapThrowMsg : String := "called `Option::unwrap_throw()` on a `None` value"

/-- Modelled from the spec: `crate::utils::element` (the `utils` module is
not under `src/`) locates the submit control scoped to the task-details
region (selector `.task-details button[type=submit]`); per the spec the
operation must not throw when no such control exists, so clicking is a
no-op in that case and activates the control when present. -/
def clickSubmitControl (submitControlPresent : Bool) : List Action :=
  if submitControlPresent then [Action.clickSubmit] else []

/-- The keydown handler installed by `Service::listen`, as a function of
the ambient state it reads: the active route (`Route::active()`), whether
the task-details submit control exists in the document, and the event.
Mirrors the source order: unwrap the target, early-return on no route,
branch on route and key code (a failed match guard falls through to the
later arms), and call `prevent_default` only after a matched branch. -/
def listenHandler (active : Option Route) (submitControlPresent : Bool)
    (event : KeyboardEvent) : Except String HandlerResult :=
  match event.target with
  | none => Except.error unwrapThrowMsg
  | some target =>
    match active with
    | none => Except.ok { actions := [], preventedDefault := false }
    | some Route.Home =>
      if event.keyCode == F && !hasTypeHtmlInputElement target then
        Except.ok { actions := [Action.focusSearch], preventedDefault := true }
      else if event.keyCode == ESCAPE then
        Except.ok { actions := [Action.blurSearch], preventedDefault := true }
      else
        Except.ok { actions := [], preventedDefault := false }
    | some (Route.Task _) =>
      if event.keyCode == ESCAPE && !hasTypeHtmlInputElement target then
        Except.ok { actions := [Action.closeActiveTask], preventedDefault := true }
      else if event.keyCode == ENTER then
        Except.ok { actions := clickSubmitControl submitControlPresent,
                    preventedDefault := true }
      else
        Except.ok { actions := [], preventedDefault := false }

/-- Listener options: `EventListenerOptions::enable_prevent_default()`. -/
structure EventListenerOptions where
  preventDefaultEnabled : Bool
deriving DecidableEq, Repr

/-- One listener registration made on the document:
`EventListener::new_with_options(&document, eventName, options, handler)`,
and whether its removal handle was dropped without removing the listener
(`EventListener::forget()`). -/
structure ListenerRegistration where
  eventName : String
  options : EventListenerOptions
  forgotten : Bool
deriving DecidableEq, Repr

/-- What a call of `Service::listen` does and returns: the registrations
it performs, and the teardown handle it hands back to the caller. The
source registers one keydown listener with prevent-default enabled, calls
`.forget()` on it, and returns `()`, so `disposable` is `none`. -/
structure InstallResult where
  registrations : List ListenerRegistration
  disposable : Option Unit
deriving DecidableEq, Repr

namespace Service

/-- `Service::listen`, viewed as the installation it performs. -/
def listen : InstallResult :=
  { registrations :=
      [{ eventName := "keydown"
         options := { preventDefaultEnabled := true }
         forgotten := true }]
    disposable := none }

end Service

/-! ## Theorems settling the claims -/

/-- C1: for every terminal job, `render` produces a staging node whose text
content is exactly the raw payload string of the Output (empty string when
`html` is absent) and a body node that is an empty container with no
children. -/
theorem render_staging_raw_payload_and_empty_body (j : Job) (o : Output)
    (h : statusOutput j.status = some o) :
    ∃ hdr cls,
      JobResult.render j = Except.ok (Node.elem "div" [("class", cls)]
        [hdr, Node.elem "section" [("class", "body")] [],
          Node.elem "section" [("class", "staging")] [Node.text (o.html.getD "")]]) ∧
      Node.textContent (Node.elem "section" [("class", "staging")]
        [Node.text (o.html.getD "")]) = o.html.getD "" ∧
      Node.children (Node.elem "section" [("class", "body")] []) = [] := by
  obtain ⟨status⟩ := j
  cases status with
  | Pending => simp [statusOutput] at h
  | Running => simp [statusOutput] at h
  | Succeeded o2 =>
    obtain rfl : o2 = o := by simpa [statusOutput] using h
    refine ⟨_, _, rfl, ?_, rfl⟩
    simp [Node.textContent, Node.textContentList]
  | Failed o2 =>
    obtain rfl : o2 = o := by simpa [statusOutput] using h
    refine ⟨_, _, rfl, ?_, rfl⟩
    simp [Node.textContent, Node.textContentList]

/-- C1 witness: rendering `Job{status: Succeeded(Output{html: Some("<b>ok</b>")})}`
yields a staging node with raw text content exactly `<b>ok</b>` and an
empty body. -/
theorem render_staging_raw_payload_and_empty_body_witness :
    statusOutput (Job.mk (Status.Succeeded (Output.mk (some "<b>ok</b>")))).status
        = some (Output.mk (some "<b>ok</b>")) ∧
    ∃ hdr cls,
      JobResult.render (Job.mk (Status.Succeeded (Output.mk (some "<b>ok</b>")))) =
        Except.ok (Node.elem "div" [("class", cls)]
          [hdr, Node.elem "section" [("class", "body")] [],
            Node.elem "section" [("class", "staging")] [Node.text "<b>ok</b>"]]) := by
  refine ⟨rfl, ?_⟩
  obtain ⟨hdr, cls, h1, -, -⟩ :=
    render_staging_raw_payload_and_empty_body
      (Job.mk (Status.Succeeded (Output.mk (some "<b>ok</b>"))))
      (Output.mk (some "<b>ok</b>")) rfl
  exact ⟨hdr, cls, h1⟩

/-- C2 counterexample: the staging node rendered for
`Job{status: Succeeded(Output{html: Some("<b>ok</b>")})}` carries the
single attribute `class="staging"`: it has no `hidden` attribute, no
`inert` attribute, and no attribute besides the class, so it is not
explicitly marked non-visible in addition to its `staging` class. -/
theorem staging_not_marked_hidden_counterexample :
    JobResult.staging (Job.mk (Status.Succeeded (Output.mk (some "<b>ok</b>")))) =
      Except.ok (Node.elem "section" [("class", "staging")] [Node.text "<b>ok</b>"]) ∧
    Node.attrs (Node.elem "section" [("class", "staging")] [Node.text "<b>ok</b>"]) =
      [("class", "staging")] ∧
    Node.hasAttrNamed (Node.elem "section" [("class", "staging")] [Node.text "<b>ok</b>"])
      "hidden" = false ∧
    Node.hasAttrNamed (Node.elem "section" [("class", "staging")] [Node.text "<b>ok</b>"])
      "inert" = false :=
  ⟨rfl, rfl, by decide, by decide⟩

/-- C2 amended: for every terminal job, the staging container carries
exactly the attribute `class="staging"` and nothing else; it is not marked
non-visible by any attribute of the rendered markup (hiding is left to
external styling of the `staging` class). -/
theorem staging_attrs_only_class (j : Job) (o : Output)
    (h : statusOutput j.status = some o) :
    ∃ stg, JobResult.staging j = Except.ok stg ∧
      stg.attrs = [("class", "staging")] := by
  obtain ⟨status⟩ := j
  cases status with
  | Pending => simp [statusOutput] at h
  | Running => simp [statusOutput] at h
  | Succeeded o2 => exact ⟨_, rfl, rfl⟩
  | Failed o2 => exact ⟨_, rfl, rfl⟩

/-- C2 amended witness: the staging node of a concrete succeeded job has
attribute list exactly `class="staging"`. -/
theorem staging_attrs_only_class_witness :
    statusOutput (Job.mk (Status.Succeeded (Output.mk (some "<b>ok</b>")))).status
        = some (Output.mk (some "<b>ok</b>")) ∧
    ∃ stg,
      JobResult.staging (Job.mk (Status.Succeeded (Output.mk (some "<b>ok</b>")))) =
        Except.ok stg ∧ stg.attrs = [("class", "staging")] :=
  ⟨rfl, staging_attrs_only_class _ (Output.mk (some "<b>ok</b>")) rfl⟩

/-- C3: on route Home, a keydown for key code F with a non-text-input
target triggers exactly one focus-search action and prevents default; with
a text-input target it triggers no action and does not prevent default. -/
theorem home_f_focuses_search_unless_input (e : KeyboardEvent) (t : ElementKind)
    (sp : Bool) (ht : e.target = some t) (hk : e.keyCode = F) :
    (hasTypeHtmlInputElement t = false →
      listenHandler (some Route.Home) sp e =
        Except.ok { actions := [Action.focusSearch], preventedDefault := true }) ∧
    (hasTypeHtmlInputElement t = true →
      listenHandler (some Route.Home) sp e =
        Except.ok { actions := [], preventedDefault := false }) := by
  constructor <;> intro h <;> simp [listenHandler, ht, hk, h, F, ESCAPE]

/-- C3 witness: on Home, F on a button target focuses search and prevents
default; F on an input target does nothing and leaves default intact. -/
theorem home_f_focuses_search_unless_input_witness :
    listenHandler (some Route.Home) true
        { keyCode := 70, target := some ElementKind.button } =
      Except.ok { actions := [Action.focusSearch], preventedDefault := true } ∧
    listenHandler (some Route.Home) true
        { keyCode := 70, target := some ElementKind.htmlInput } =
      Except.ok { actions := [], preventedDefault := false } :=
  ⟨(home_f_focuses_search_unless_input _ ElementKind.button true rfl rfl).1 rfl,
   (home_f_focuses_search_unless_input _ ElementKind.htmlInput true rfl rfl).2 rfl⟩

/-- C4: on route Task(id), a keydown for Escape with a non-text-input
target dispatches exactly one asynchronous close-active-task call and
prevents default; with a text-input target it does nothing and does not
prevent default. -/
theorem task_escape_closes_unless_input (id : Nat) (e : KeyboardEvent)
    (t : ElementKind) (sp : Bool) (ht : e.target = some t)
    (hk : e.keyCode = ESCAPE) :
    (hasTypeHtmlInputElement t = false →
      listenHandler (some (Route.Task id)) sp e =
        Except.ok { actions := [Action.closeActiveTask], preventedDefault := true }) ∧
    (hasTypeHtmlInputElement t = true →
      listenHandler (some (Route.Task id)) sp e =
        Except.ok { actions := [], preventedDefault := false }) := by
  constructor <;> intro h <;> simp [listenHandler, ht, hk, h, ESCAPE, ENTER]

/-- C4 witness: on Task(7), Escape on a button target closes the task and
prevents default; Escape on an input target does nothing. -/
theorem task_escape_closes_unless_input_witness :
    listenHandler (some (Route.Task 7)) true
        { keyCode := 27, target := some ElementKind.button } =
      Except.ok { actions := [Action.closeActiveTask], preventedDefault := true } ∧
    listenHandler (some (Route.Task 7)) true
        { keyCode := 27, target := some ElementKind.htmlInput } =
      Except.ok { actions := [], preventedDefault := false } :=
  ⟨(task_escape_closes_unless_input 7 _ ElementKind.button true rfl rfl).1 rfl,
   (task_escape_closes_unless_input 7 _ ElementKind.htmlInput true rfl rfl).2 rfl⟩

/-- C5: a key event whose key code matches no shortcut entry of the active
route category triggers no action and does not prevent default, and an
event arriving while no route is active does nothing either. -/
theorem unmatched_key_no_action_no_prevent (e : KeyboardEvent) (t : ElementKind)
    (sp : Bool) (ht : e.target = some t) :
    (e.keyCode ≠ F → e.keyCode ≠ ESCAPE →
      listenHandler (some Route.Home) sp e =
        Except.ok { actions := [], preventedDefault := false }) ∧
    (∀ id, e.keyCode ≠ ESCAPE → e.keyCode ≠ ENTER →
      listenHandler (some (Route.Task id)) sp e =
        Except.ok { actions := [], preventedDefault := false }) ∧
    listenHandler none sp e =
      Except.ok { actions := [], preventedDefault := false } := by
  refine ⟨fun hf hesc => ?_, fun id hesc hent => ?_, ?_⟩ <;>
    simp [listenHandler, ht, *]

/-- C5 witness: key code 65 under Home, under Task(3), and under no active
route triggers no action and leaves default intact. -/
theorem unmatched_key_no_action_no_prevent_witness :
    listenHandler (some Route.Home) true
        { keyCode := 65, target := some ElementKind.button } =
      Except.ok { actions := [], preventedDefault := false } ∧
    listenHandler (some (Route.Task 3)) true
        { keyCode := 65, target := some ElementKind.button } =
      Except.ok { actions := [], preventedDefault := false } ∧
    listenHandler none true
        { keyCode := 65, target := some ElementKind.button } =
      Except.ok { actions := [], preventedDefault := false } :=
  ⟨(unmatched_key_no_action_no_prevent _ _ _ rfl).1 (by decide) (by decide),
   (unmatched_key_no_action_no_prevent _ _ _ rfl).2.1 3 (by decide) (by decide),
   (unmatched_key_no_action_no_prevent _ _ _ rfl).2.2⟩

/-- C7: on route Task(id), a keydown for Enter yields a normal (non-throwing)
result that prevents default; it clicks the task-details submit control
when one exists in the document and is a no-op click otherwise. -/
theorem task_enter_clicks_submit_no_throw (id : Nat) (e : KeyboardEvent)
    (t : ElementKind) (sp : Bool) (ht : e.target = some t)
    (hk : e.keyCode = ENTER) :
    listenHandler (some (Route.Task id)) sp e =
      Except.ok { actions := clickSubmitControl sp, preventedDefault := true } ∧
    (sp = true → clickSubmitControl sp = [Action.clickSubmit]) ∧
    (sp = false → clickSubmitControl sp = []) := by
  refine ⟨?_, fun h => by simp [clickSubmitControl, h], fun h => by simp [clickSubmitControl, h]⟩
  simp [listenHandler, ht, hk, ENTER, ESCAPE]

/-- C7 witness: on Task(2), Enter with the submit control absent still
returns normally, with no action and default prevented. -/
theorem task_enter_clicks_submit_no_throw_witness :
    listenHandler (some (Route.Task 2)) false
        { keyCode := 13, target := some ElementKind.htmlInput } =
      Except.ok { actions := [], preventedDefault := true } := by
  have h := (task_enter_clicks_submit_no_throw 2
      { keyCode := 13, target := some ElementKind.htmlInput }
      ElementKind.htmlInput false rfl rfl).1
  simpa [clickSubmitControl] using h

/-- C10: the text-input check holds exactly for an HtmlInputElement
target; a textarea or contenteditable target counts as not a text input,
so on Home, F with such a target still focuses search and prevents
default, and on Task(id), Escape there still closes the task. -/
theorem text_input_check_only_html_input (t : ElementKind) :
    (hasTypeHtmlInputElement t = true ↔ t = ElementKind.htmlInput) ∧
    (t = ElementKind.htmlTextArea ∨ t = ElementKind.contentEditable →
      (∀ sp, listenHandler (some Route.Home) sp { keyCode := F, target := some t } =
        Except.ok { actions := [Action.focusSearch], preventedDefault := true }) ∧
      (∀ id sp,
        listenHandler (some (Route.Task id)) sp { keyCode := ESCAPE, target := some t } =
          Except.ok { actions := [Action.closeActiveTask], preventedDefault := true })) := by
  cases t <;>
    simp [hasTypeHtmlInputElement, listenHandler, F, ESCAPE, ENTER]

/-- C10 witness: a textarea target is not a text input for the check, F on
Home with it focuses search, and Escape on Task(1) with it closes the
task. -/
theorem text_input_check_only_html_input_witness :
    (hasTypeHtmlInputElement ElementKind.htmlTextArea = true ↔
      ElementKind.htmlTextArea = ElementKind.htmlInput) ∧
    listenHandler (some Route.Home) true
        { keyCode := F, target := some ElementKind.htmlTextArea } =
      Except.ok { actions := [Action.focusSearch], preventedDefault := true } ∧
    listenHandler (some (Route.Task 1)) true
        { keyCode := ESCAPE, target := some ElementKind.htmlTextArea } =
      Except.ok { actions := [Action.closeActiveTask], preventedDefault := true } :=
  ⟨(text_input_check_only_html_input ElementKind.htmlTextArea).1,
   ((text_input_check_only_html_input ElementKind.htmlTextArea).2 (Or.inl rfl)).1 true,
   ((text_input_check_only_html_input ElementKind.htmlTextArea).2 (Or.inl rfl)).2 1 true⟩

/-- C6 counterexample: a keydown event with no target makes the handler
throw (the `unwrap_throw` on `event.target()` runs before route
resolution), so not every introspection failure is swallowed: an
exception escapes the key event handler. -/
theorem no_target_throws_counterexample :
    listenHandler (some Route.Home) true { keyCode := 70, target := none } =
      Except.error unwrapThrowMsg :=
  rfl

/-- C6 amended: when route resolution yields no active route the handler
swallows this, performs no action and does not prevent default; but when
the event has no target the handler throws via `unwrap_throw` instead of
swallowing the failure, whatever the active route is. -/
theorem no_route_swallowed_but_no_target_throws (active : Option Route)
    (sp : Bool) (e : KeyboardEvent) :
    (e.target = none →
      listenHandler active sp e = Except.error unwrapThrowMsg) ∧
    (∀ t, active = none → e.target = some t →
      listenHandler active sp e =
        Except.ok { actions := [], preventedDefault := false }) := by
  constructor
  · intro h
    simp [listenHandler, h]
  · intro t ha ht
    simp [listenHandler, ha, ht]

/-- C6 amended witness: with Home active, an event with no target throws;
with no active route, an event with a button target does nothing and does
not prevent default. -/
theorem no_route_swallowed_but_no_target_throws_witness :
    listenHandler (some Route.Home) true { keyCode := 27, target := none } =
      Except.error unwrapThrowMsg ∧
    listenHandler none true { keyCode := 27, target := some ElementKind.button } =
      Except.ok { actions := [], preventedDefault := false } :=
  ⟨(no_route_swallowed_but_no_target_throws (some Route.Home) true
      { keyCode := 27, target := none }).1 rfl,
   (no_route_swallowed_but_no_target_throws none true
      { keyCode := 27, target := some ElementKind.button }).2
      ElementKind.button rfl rfl⟩

/-- C8 counterexample: `Service::listen` hands back no disposable at all
(`disposable = none`): the listener is registered and then forgotten, so
no teardown handle that removes the listener is returned. -/
theorem listen_returns_no_disposable_counterexample :
    Service.listen.disposable = none ∧
    Service.listen.registrations.map ListenerRegistration.forgotten = [true] :=
  ⟨rfl, rfl⟩

/-- C8 amended: installing the shortcut dispatcher registers exactly one
keydown listener on the document with prevent-default enabled and then
forgets its removal handle; no disposable is returned and no teardown
path (for tests or otherwise) exists. -/
theorem listen_registers_one_forgotten_listener :
    Service.listen =
      { registrations :=
          [{ eventName := "keydown"
             options := { preventDefaultEnabled := true }
             forgotten := true }]
        disposable := none } :=
  rfl

/-- C9: the header view yields the literal label Success! for a Succeeded
job and Failed! for a Failed job, and fails fast (the unreachable
assertion) for every non-terminal status instead of rendering a blank
header. -/
theorem header_labels_and_fails_fast_nonterminal (j : Job) :
    (∀ o, j.status = Status.Succeeded o →
      JobResult.header j = Except.ok (Node.elem "header" []
        [Node.elem "div" []
          [Node.elem "div" [("class", "status")]
            [Node.elem "div" [] [Node.text "Success!"]]]])) ∧
    (∀ o, j.status = Status.Failed o →
      JobResult.header j = Except.ok (Node.elem "header" []
        [Node.elem "div" []
          [Node.elem "div" [("class", "status")]
            [Node.elem "div" [] [Node.text "Failed!"]]]])) ∧
    (j.status = Status.Pending ∨ j.status = Status.Running →
      JobResult.header j = Except.error unreachableMsg) := by
  refine ⟨fun o h => ?_, fun o h => ?_, fun h => ?_⟩
  · simp only [JobResult.header, h]; rfl
  · simp only [JobResult.header, h]; rfl
  · rcases h with h | h <;> (simp only [JobResult.header, h]; rfl)

/-- C9 witness: the three header behaviors at concrete jobs: a succeeded
job titles Success!, a failed job titles Failed!, and a pending job fails
the assertion. -/
theorem header_labels_and_fails_fast_nonterminal_witness :
    JobResult.header (Job.mk (Status.Succeeded (Output.mk none))) =
      Except.ok (Node.elem "header" []
        [Node.elem "div" []
          [Node.elem "div" [("class", "status")]
            [Node.elem "div" [] [Node.text "Success!"]]]]) ∧
    JobResult.header (Job.mk (Status.Failed (Output.mk none))) =
      Except.ok (Node.elem "header" []
        [Node.elem "div" []
          [Node.elem "div" [("class", "status")]
            [Node.elem "div" [] [Node.text "Failed!"]]]]) ∧
    JobResult.header (Job.mk Status.Pending) = Except.error unreachableMsg :=
  ⟨(header_labels_and_fails_fast_nonterminal
      (Job.mk (Status.Succeeded (Output.mk none)))).1 (Output.mk none) rfl,
   (header_labels_and_fails_fast_nonterminal
      (Job.mk (Status.Failed (Output.mk none)))).2.1 (Output.mk none) rfl,
   (header_labels_and_fails_fast_nonterminal
      (Job.mk Status.Pending)).2.2 (Or.inl rfl)⟩

end Automaat
